import Mathlib

set_option maxRecDepth 8000

/-!
Shallow embedding of the job orchestration layer of src/main.js from the
DebMaster repository: the activeProcesses registry with its kind-prefixed
keys, the per-process stdout line decoder (buffer accumulation and
newline splitting), a model of JSON.parse and of JS property assignment,
the three IPC request handlers (fetch-github-releases,
download-and-compile-deb, start-patching) with their close handlers, and
the renderer routing fallback. JS strings are embedded as lists of
characters; raw stream bytes as lists of natural numbers below 256.
-/

/-- JS strings are modelled as lists of characters. -/
abbrev JStr := List Char

/-- Left brace character, kept out of string literals. -/
def braceL : Char := Char.ofNat 123

/-- Right brace character, kept out of string literals. -/
def braceR : Char := Char.ofNat 125

/-- JSON values as produced by JSON.parse. Numbers are kept exact as a
mantissa and a power-of-ten exponent (the denoted value is m * 10 ^ e),
so no floating point enters the model; the claims only ever compare
numbers produced by identical literals. -/
inductive Json where
  | null : Json
  | bool (b : Bool) : Json
  | num (m : Int) (e : Int) : Json
  | str (s : JStr) : Json
  | arr (xs : List Json) : Json
  | obj (fields : List (JStr × Json)) : Json

/-- Field lookup in an object field list (JS objects never hold duplicate
keys, see insertKey). -/
def lookupField : List (JStr × Json) → JStr → Option Json
  | [], _ => none
  | (k, v) :: rest, key => if k = key then some v else lookupField rest key

/-- Models JS property read obj.k: undefined (none) on a non-object or a
missing key. -/
def Json.getField : Json → JStr → Option Json
  | .obj fields, k => lookupField fields k
  | _, _ => none

/-- Models JS property creation/update inside an object literal: an
existing key keeps its position and gets the new value, a new key is
appended. Both JSON.parse (last duplicate wins, first position kept) and
plain assignment follow this. -/
def insertKey : List (JStr × Json) → JStr → Json → List (JStr × Json)
  | [], k, v => [(k, v)]
  | (k0, v0) :: rest, k, v =>
      if k0 = k then (k0, v) :: rest else (k0, v0) :: insertKey rest k v

/-- Models the JS assignment j.k = v in sloppy mode: mutates an object,
silently no-ops on numbers, strings, booleans; named properties set on an
array are dropped again by the structured clone of webContents.send, so
arrays are modelled as unchanged as well. Assignment on null throws, which
the callers model separately. -/
def Json.setField : Json → JStr → Json → Json
  | .obj fields, k, v => .obj (insertKey fields k v)
  | j, _, _ => j

/-- JSON insignificant whitespace. -/
def isJsonWs (c : Char) : Bool :=
  c == ' ' || c == '\t' || c == '\n' || c == '\r'

/-- Drop insignificant whitespace. -/
def skipWs (s : JStr) : JStr := s.dropWhile isJsonWs

/-- Numeric value of one hex digit. -/
def hexVal (c : Char) : Option Nat :=
  let n := c.toNat
  if 48 ≤ n ∧ n ≤ 57 then some (n - 48)
  else if 97 ≤ n ∧ n ≤ 102 then some (n - 87)
  else if 65 ≤ n ∧ n ≤ 70 then some (n - 55)
  else none

/-- Four hex digits of a unicode escape. -/
def parseHex4 : JStr → Option (Nat × JStr)
  | a :: b :: c :: d :: rest => do
      let x ← hexVal a
      let y ← hexVal b
      let z ← hexVal c
      let w ← hexVal d
      pure (((x * 16 + y) * 16 + z) * 16 + w, rest)
  | _ => none

/-- Natural number denoted by a digit run. -/
def digitsToNat (ds : List Char) : Nat :=
  ds.foldl (fun n c => n * 10 + (c.toNat - 48)) 0

/-- JSON number grammar as accepted by JSON.parse: optional minus, an
integer part without leading zeros, optional fraction, optional exponent.
Returns the value as mantissa and power-of-ten exponent. -/
def parseNumber (s : JStr) : Option (Json × JStr) :=
  let signed := match s with
    | '-' :: rest => (true, rest)
    | _ => (false, s)
  let neg := signed.1
  let s1 := signed.2
  let intPart : Option (List Char × JStr) := match s1 with
    | '0' :: rest => some (['0'], rest)
    | c :: _ =>
        if c.isDigit then
          let sp := s1.span Char.isDigit
          some (sp.1, sp.2)
        else none
    | [] => none
  match intPart with
  | none => none
  | some (ids, r1) =>
    let frac : Option (List Char × JStr) := match r1 with
      | '.' :: r2 =>
          let sp := r2.span Char.isDigit
          if sp.1 = [] then none else some (sp.1, sp.2)
      | _ => some ([], r1)
    match frac with
    | none => none
    | some (fds, r2) =>
      let expo : Option (Int × JStr) := match r2 with
        | 'e' :: r3 | 'E' :: r3 =>
            let esigned : (Bool × JStr) := match r3 with
              | '+' :: r4 => (false, r4)
              | '-' :: r4 => (true, r4)
              | _ => (false, r3)
            let sp := esigned.2.span Char.isDigit
            if sp.1 = [] then none
            else
              let ev : Int := Int.ofNat (digitsToNat sp.1)
              some (if esigned.1 then -ev else ev, sp.2)
        | _ => some (0, r2)
      match expo with
      | none => none
      | some (ev, r3) =>
        let mant : Int := Int.ofNat (digitsToNat (ids ++ fds))
        let m : Int := if neg then -mant else mant
        some (Json.num m (ev - Int.ofNat fds.length), r3)

/-- The unicode replacement character U+FFFD. -/
def repl : Char := Char.ofNat 0xFFFD

/-- String body after the opening quote, fuelled. Handles the JSON
escapes, rejects raw control characters, combines surrogate escape pairs
(a lone surrogate, unrepresentable in a Lean string, becomes U+FFFD). -/
def parseStrBody : Nat → JStr → Option (JStr × JStr)
  | 0, _ => none
  | _ + 1, [] => none
  | fuel + 1, c :: rest =>
    if c = '"' then some ([], rest)
    else if c = '\\' then
      match rest with
      | [] => none
      | e :: r1 =>
        let simpleEsc : Option Char :=
          if e = '"' then some '"'
          else if e = '\\' then some '\\'
          else if e = '/' then some '/'
          else if e = 'b' then some (Char.ofNat 8)
          else if e = 'f' then some (Char.ofNat 12)
          else if e = 'n' then some '\n'
          else if e = 'r' then some '\r'
          else if e = 't' then some '\t'
          else none
        match simpleEsc with
        | some ch => (parseStrBody fuel r1).map (fun p => (ch :: p.1, p.2))
        | none =>
          if e = 'u' then
            match parseHex4 r1 with
            | none => none
            | some (n, r2) =>
              if 0xD800 ≤ n ∧ n ≤ 0xDBFF then
                match r2 with
                | '\\' :: 'u' :: r3 =>
                  match parseHex4 r3 with
                  | some (n2, r4) =>
                    if 0xDC00 ≤ n2 ∧ n2 ≤ 0xDFFF then
                      let cp := 0x10000 + (n - 0xD800) * 0x400 + (n2 - 0xDC00)
                      (parseStrBody fuel r4).map
                        (fun p => (Char.ofNat cp :: p.1, p.2))
                    else
                      (parseStrBody fuel r2).map (fun p => (repl :: p.1, p.2))
                  | none =>
                      (parseStrBody fuel r2).map (fun p => (repl :: p.1, p.2))
                | _ => (parseStrBody fuel r2).map (fun p => (repl :: p.1, p.2))
              else if 0xDC00 ≤ n ∧ n ≤ 0xDFFF then
                (parseStrBody fuel r2).map (fun p => (repl :: p.1, p.2))
              else
                (parseStrBody fuel r2).map (fun p => (Char.ofNat n :: p.1, p.2))
          else none
    else if c.toNat < 32 then none
    else (parseStrBody fuel rest).map (fun p => (c :: p.1, p.2))

mutual

/-- One JSON value, fuelled recursive descent following the grammar that
JSON.parse accepts. -/
def parseValue : Nat → JStr → Option (Json × JStr)
  | 0, _ => none
  | fuel + 1, s =>
    match s with
    | [] => none
    | 'n' :: 'u' :: 'l' :: 'l' :: r => some (.null, r)
    | 't' :: 'r' :: 'u' :: 'e' :: r => some (.bool true, r)
    | 'f' :: 'a' :: 'l' :: 's' :: 'e' :: r => some (.bool false, r)
    | '"' :: r => (parseStrBody fuel r).map (fun p => (Json.str p.1, p.2))
    | '[' :: r =>
      match skipWs r with
      | ']' :: r2 => some (.arr [], r2)
      | r1 => parseElems fuel r1 []
    | c :: r =>
      if c = braceL then
        match skipWs r with
        | d :: r2 =>
            if d = braceR then some (.obj [], r2)
            else parseMembers fuel (skipWs r) []
        | [] => none
      else parseNumber s

/-- Array elements after the first (the accumulator holds earlier
elements reversed). -/
def parseElems : Nat → JStr → List Json → Option (Json × JStr)
  | 0, _, _ => none
  | fuel + 1, s, acc =>
    match parseValue fuel s with
    | none => none
    | some (v, r1) =>
      match skipWs r1 with
      | ',' :: r2 => parseElems fuel (skipWs r2) (v :: acc)
      | ']' :: r2 => some (.arr (v :: acc).reverse, r2)
      | _ => none

/-- Object members; duplicate keys collapse as in JS (last value wins at
the first position). -/
def parseMembers : Nat → JStr → List (JStr × Json) → Option (Json × JStr)
  | 0, _, _ => none
  | fuel + 1, s, acc =>
    match s with
    | '"' :: r =>
      match parseStrBody fuel r with
      | none => none
      | some (k, r2) =>
        match skipWs r2 with
        | ':' :: r3 =>
          match parseValue fuel (skipWs r3) with
          | none => none
          | some (v, r4) =>
            let acc2 := insertKey acc k v
            match skipWs r4 with
            | ',' :: r5 => parseMembers fuel (skipWs r5) acc2
            | d :: r5 => if d = braceR then some (.obj acc2, r5) else none
            | [] => none
        | _ => none
    | _ => none

end

/-- Model of JSON.parse on a whole line: whitespace-framed single value,
nothing trailing; none models a thrown SyntaxError. -/
def jsonParse (s : JStr) : Option Json :=
  match parseValue (s.length + 1) (skipWs s) with
  | some (j, r) => if skipWs r = [] then some j else none
  | none => none

/-!
Model of Buffer.toString as used in buffer += data.toString(): WHATWG
UTF-8 decoding with replacement. Each data chunk is decoded on its own,
so a multi-byte character split across two chunks cannot be reassembled:
the truncated tail of the first chunk and the orphan continuation bytes
at the head of the second each become U+FFFD.
-/

/-- Classification of a byte met in the initial decoder state. -/
inductive StartRes where
  | ascii (c : Char) : StartRes
  | lead (cp needed lo hi : Nat) : StartRes
  | invalid : StartRes

/-- WHATWG UTF-8 lead-byte classification, with the tightened
continuation ranges that exclude overlong forms and surrogates. -/
def startByte (b : Nat) : StartRes :=
  if b ≤ 0x7F then .ascii (Char.ofNat b)
  else if 0xC2 ≤ b ∧ b ≤ 0xDF then .lead (b - 0xC0) 1 0x80 0xBF
  else if b = 0xE0 then .lead 0 2 0xA0 0xBF
  else if 0xE1 ≤ b ∧ b ≤ 0xEC then .lead (b - 0xE0) 2 0x80 0xBF
  else if b = 0xED then .lead 13 2 0x80 0x9F
  else if 0xEE ≤ b ∧ b ≤ 0xEF then .lead (b - 0xE0) 2 0x80 0xBF
  else if b = 0xF0 then .lead 0 3 0x90 0xBF
  else if 0xF1 ≤ b ∧ b ≤ 0xF3 then .lead (b - 0xF0) 3 0x80 0xBF
  else if b = 0xF4 then .lead 4 3 0x80 0x8F
  else .invalid

/-- WHATWG decode loop. State: accumulated code point, continuation
bytes still needed, admissible range for the next byte. On a byte outside
the range one replacement character is emitted and the byte is
reclassified in the initial state; a truncated final sequence flushes as
one replacement character. -/
def utf8Aux : List Nat → Nat → Nat → Nat → Nat → List Char
  | [], _, needed, _, _ => if needed = 0 then [] else [repl]
  | b :: bs, _, 0, _, _ =>
    match startByte b with
    | .ascii c => c :: utf8Aux bs 0 0 0x80 0xBF
    | .lead cp2 n lo hi => utf8Aux bs cp2 n lo hi
    | .invalid => repl :: utf8Aux bs 0 0 0x80 0xBF
  | b :: bs, cp, needed + 1, lo, hi =>
    if lo ≤ b ∧ b ≤ hi then
      let cp2 := cp * 64 + (b - 0x80)
      if needed = 0 then Char.ofNat cp2 :: utf8Aux bs 0 0 0x80 0xBF
      else utf8Aux bs cp2 needed 0x80 0xBF
    else
      repl ::
        (match startByte b with
         | .ascii c => c :: utf8Aux bs 0 0 0x80 0xBF
         | .lead cp2 n lo2 hi2 => utf8Aux bs cp2 n lo2 hi2
         | .invalid => repl :: utf8Aux bs 0 0 0x80 0xBF)

/-- Model of chunk.toString() on a raw byte chunk. -/
def bufToStr (bytes : List Nat) : JStr := utf8Aux bytes 0 0 0x80 0xBF

/-!
The stdout data handler of every spawned process runs the same loop:

    buffer += data.toString();
    let boundary = buffer.indexOf(newline);
    while (boundary !== -1) {
      const line = buffer.substring(0, boundary);
      buffer = buffer.substring(boundary + 1);
      if (line) { try { ... JSON.parse(line) ... } catch { warn } }
      boundary = buffer.indexOf(newline);
    }

extractLines captures the whole while loop: it returns every complete
newline-terminated segment, in order, and the trailing remainder that
stays in the buffer.
-/

/-- Complete newline-terminated segments of a string plus trailing
remainder (the remainder holds no newline). -/
def extractLines : JStr → List JStr × JStr
  | [] => ([], [])
  | c :: cs =>
    let p := extractLines cs
    if c = '\n' then ([] :: p.1, p.2)
    else
      match p.1 with
      | [] => ([], c :: p.2)
      | l :: ls => ((c :: l) :: ls, p.2)

/-- A consumer-facing dispatch: one webContents.send call of the three
channels the backend listeners use. The github payloads are Option since
jsonData.releases or jsonData.error may be undefined. -/
inductive Dispatch where
  | githubData (releases : Option Json) : Dispatch
  | githubError (err : Option Json) : Dispatch
  | backend (msg : Json) : Dispatch

/-- The JS strict comparison j.k === v for a string literal v: true
exactly when the field is present and is that string. -/
def strFieldIs (j : Json) (k v : JStr) : Bool :=
  match j.getField k with
  | some (.str s) => s == v
  | _ => false

/-- Per-line behaviour of the fetch-github-releases stdout handler:
parse, then forward only the two recognised shapes; any other parsed
shape is silently dropped, a parse failure is only logged. -/
def fetchLine (l : JStr) : List Dispatch :=
  match jsonParse l with
  | none => []
  | some j =>
    if strFieldIs j "type".data "github_releases".data &&
        strFieldIs j "status".data "completed".data then
      [.githubData (j.getField "releases".data)]
    else if strFieldIs j "type".data "github".data &&
        strFieldIs j "status".data "failed".data then
      [.githubError (j.getField "error".data)]
    else []

/-- Per-line behaviour of the download-and-compile-deb stdout handler:
every parsed line is forwarded as a backend-message, a parse failure is
only logged. -/
def downloadLine (l : JStr) : List Dispatch :=
  match jsonParse l with
  | none => []
  | some j => [.backend j]

/-- Per-line behaviour of the start-patching stdout handler: the job
identifier is assigned onto the parsed value (overwriting any identifier
the message carried), then it is forwarded. The assignment
jsonData.identifier = identifier throws on null, and the throw lands in
the same catch as a parse failure, so a literal null line is dropped. -/
def patchLine (id : JStr) (l : JStr) : List Dispatch :=
  match jsonParse l with
  | none => []
  | some .null => []
  | some j => [.backend (j.setField "identifier".data (.str id))]

/-- The stdout data-event loop of one process: each chunk (already a JS
string) is appended to the carried buffer, then every complete segment is
extracted, and each nonempty segment runs through the per-line handler
(if (line) skips empty segments). -/
def runStream (f : JStr → List Dispatch) : JStr → List JStr → List Dispatch
  | _, [] => []
  | buf, c :: cs =>
    let p := extractLines (buf ++ c)
    (p.1.map (fun l => if l = [] then [] else f l)).flatten ++
      runStream f p.2 cs

/-- Dispatches of a list of segments fed to a per-line handler, with the
empty-segment skip. -/
def lineEmits (f : JStr → List Dispatch) (segs : List JStr) : List Dispatch :=
  (segs.map (fun l => if l = [] then [] else f l)).flatten

/-- The stdout loop on raw byte chunks: buffer += data.toString() decodes
every chunk on its own before appending. -/
def runStreamBytes (f : JStr → List Dispatch) (chunks : List (List Nat)) :
    List Dispatch :=
  runStream f [] (chunks.map bufToStr)

/-- Registry key of a fetch-github-releases job. -/
def fetchKey (repoUrl : JStr) : JStr := "fetch:".data ++ repoUrl

/-- Registry key of a download-and-compile-deb job. -/
def downloadKey (downloadUrl : JStr) : JStr := "download:".data ++ downloadUrl

/-- Registry key of a start-patching job. -/
def patchKey (identifier : JStr) : JStr := "patch:".data ++ identifier

/-- One whole observed life of a spawned process: the stdout chunks it
produced (as JS strings, already decoded) and the exit code handed to the
close event; none models a null code. A failed spawn is the instance with
no output and a null code: Node fires the error event (unhandled by these
listeners) and then still fires close. -/
structure RunInput where
  chunks : List JStr
  exitCode : Option Int

/-- Observable outcome of one IPC request: final registry, consumer
dispatches in order, whether a process was spawned, and how often the
registry was written (activeProcesses.set) and released
(activeProcesses.delete). -/
structure RunRes where
  registry : List JStr
  dispatches : List Dispatch
  spawned : Bool
  setCalls : Nat
  deleteCalls : Nat

/-- The terminal process_exit message the download close handler sends:
completed exactly on exit code 0 (a null code compares unequal to 0). -/
def downloadExitMsg (url : JStr) (code : Option Int) : Json :=
  .obj [("type".data, .str "process_exit".data),
        ("status".data,
          .str (if code = some 0 then "completed".data else "failed".data)),
        ("download_url".data, .str url),
        ("code".data, match code with
          | some n => .num n 0
          | none => .null)]

/-- The terminal process_exit message the patch close handler sends. -/
def patchExitMsg (id : JStr) (code : Option Int) : Json :=
  .obj [("type".data, .str "process_exit".data),
        ("status".data,
          .str (if code = some 0 then "completed".data else "failed".data)),
        ("identifier".data, .str id),
        ("code".data, match code with
          | some n => .num n 0
          | none => .null)]

/-- The ipcMain listener for fetch-github-releases: reject a running key,
else spawn, register, stream stdout, and on close only log and release
the registry entry (nothing is dispatched at close). -/
def fetchRun (st : List JStr) (repoUrl : JStr) (inp : RunInput) : RunRes :=
  let key := fetchKey repoUrl
  if key ∈ st then ⟨st, [], false, 0, 0⟩
  else
    ⟨(key :: st).erase key,
     runStream fetchLine [] inp.chunks,
     true, 1, 1⟩

/-- The ipcMain listener for download-and-compile-deb: reject a running
key, else spawn, register, stream stdout, and on close release the
registry entry and send the synthesized process_exit message. -/
def downloadRun (st : List JStr) (url : JStr) (inp : RunInput) : RunRes :=
  let key := downloadKey url
  if key ∈ st then ⟨st, [], false, 0, 0⟩
  else
    ⟨(key :: st).erase key,
     runStream downloadLine [] inp.chunks ++
       [.backend (downloadExitMsg url inp.exitCode)],
     true, 1, 1⟩

/-- The data a start-patching request carries. ipaBuffer is none when
absent (the falsy check !ipaBuffer); the falsy check on the string
tweakPath also fires on the empty string. -/
structure PatchData where
  ipaBuffer : Option (List Nat)
  tweakPath : JStr
  identifier : JStr
  ipaName : Option JStr

/-- Outcome of the fs.writeFile staging of the temp IPA. writeFile opens
the file with flag w (creating it) and then writes, so a failure may or
may not leave a partially written file behind; created records whether it
did. -/
inductive WriteRes where
  | ok : WriteRes
  | err (created : Bool) : WriteRes

/-- Observable outcome of a start-patching request; on top of RunRes it
records the fs.unlink invocations and whether the staged temp IPA file
still exists once the job is over (deletion, when invoked, is assumed to
succeed; a failed deletion is only logged). -/
structure PatchRes where
  registry : List JStr
  dispatches : List Dispatch
  spawned : Bool
  setCalls : Nat
  deleteCalls : Nat
  unlinkCalls : Nat
  tempExists : Bool

/-- The invalid-data failure message of the start-patching listener. -/
def invalidDataMsg (id : JStr) : Json :=
  .obj [("type".data, .str "operation".data),
        ("status".data, .str "failed".data),
        ("error".data, .str "Invalid file data provided.".data),
        ("identifier".data, .str id)]

/-- The staging-failure message of the start-patching listener. -/
def stagingFailMsg (id : JStr) : Json :=
  .obj [("type".data, .str "operation".data),
        ("status".data, .str "failed".data),
        ("error".data, .str "Could not save IPA file for patching.".data),
        ("identifier".data, .str id)]

/-- The ipcMain listener for start-patching: reject a running key; reject
missing input data with an operation/failed message; stage the temp IPA
via fs.writeFile, whose error branch reports operation/failed and returns
without spawning and without removing anything; otherwise spawn,
register, stream stdout through the identifier-overwriting handler, and
on close release the registry entry, unlink the temp file and send the
synthesized process_exit message. -/
def patchRun (st : List JStr) (d : PatchData) (w : WriteRes)
    (inp : RunInput) : PatchRes :=
  let key := patchKey d.identifier
  if key ∈ st then ⟨st, [], false, 0, 0, 0, false⟩
  else if d.ipaBuffer = none ∨ d.tweakPath = [] then
    ⟨st, [.backend (invalidDataMsg d.identifier)], false, 0, 0, 0, false⟩
  else
    match w with
    | .err created =>
        ⟨st, [.backend (stagingFailMsg d.identifier)], false, 0, 0, 0,
         created⟩
    | .ok =>
        ⟨(key :: st).erase key,
         runStream (patchLine d.identifier) [] inp.chunks ++
           [.backend (patchExitMsg d.identifier inp.exitCode)],
         true, 1, 1, 1, false⟩

/-- A terminal consumer message: an operation result with completed or
failed status, or a process_exit message (whose status is always
completed or failed). -/
def isTerminalMsg (j : Json) : Bool :=
  (match j.getField "type".data with
   | some (.str t) =>
       t == "operation".data || t == "process_exit".data
   | _ => false) &&
  (match j.getField "status".data with
   | some (.str s) => s == "completed".data || s == "failed".data
   | _ => false)

/-- A terminal dispatch on the backend-message channel. -/
def isTerminalDispatch : Dispatch → Bool
  | .backend j => isTerminalMsg j
  | _ => false

/-- Number of terminal dispatches in a dispatch list. -/
def countTerminal (ds : List Dispatch) : Nat :=
  (ds.filter isTerminalDispatch).length

/-- The renderer routing step of the backend-message listener:
data.identifier || data.download_url, modelling JS truthiness
(undefined, null, false, 0, and the empty string are falsy). -/
def jsTruthy : Option Json → Bool
  | none => false
  | some .null => false
  | some (.bool b) => b
  | some (.num m _) => m ≠ 0
  | some (.str s) => s ≠ []
  | some (.arr _) => true
  | some (.obj _) => true

/-- The identifier the renderer routes a backend message by. -/
def routeId (data : Json) : Option Json :=
  if jsTruthy (data.getField "identifier".data) then
    data.getField "identifier".data
  else data.getField "download_url".data

/-- The remainder kept in the buffer never contains a newline. -/
theorem extractLines_snd_no_nl (s : JStr) : '\n' ∉ (extractLines s).2 := by
  induction s with
  | nil => simp [extractLines]
  | cons c cs ih =>
    by_cases hc : c = '\n'
    · subst hc; simpa [extractLines] using ih
    · rcases h1 : (extractLines cs).1 with _ | ⟨l, ls⟩
      · simp [extractLines, hc, h1] at ih ⊢
        exact ⟨fun he => hc he.symm, ih⟩
      · simpa [extractLines, hc, h1] using ih

/-- A newline-free string extracts no complete segment. -/
theorem extractLines_of_no_nl (s : JStr) (h : '\n' ∉ s) :
    extractLines s = ([], s) := by
  induction s with
  | nil => rfl
  | cons c cs ih =>
    have hc : c ≠ '\n' := by rintro rfl; exact h (List.mem_cons_self _ _)
    have hcs : '\n' ∉ cs := fun hm => h (List.mem_cons_of_mem _ hm)
    simp [extractLines, hc, ih hcs]

/-- Compositionality of segment extraction: extracting from a
concatenation is extracting from the first part, then from its remainder
prepended to the second part. -/
theorem extractLines_append (a b : JStr) :
    extractLines (a ++ b) =
      ((extractLines a).1 ++ (extractLines ((extractLines a).2 ++ b)).1,
       (extractLines ((extractLines a).2 ++ b)).2) := by
  induction a with
  | nil => simp [extractLines]
  | cons c cs ih =>
    by_cases hc : c = '\n'
    · subst hc
      simp [extractLines, ih]
    · rcases h1 : (extractLines cs).1 with _ | ⟨l, ls⟩
      · have h2 : extractLines (c :: cs) = ([], c :: (extractLines cs).2) := by
          simp [extractLines, hc, h1]
        rcases h3 :
            (extractLines ((extractLines cs).2 ++ b)).1 with _ | ⟨m, ms⟩ <;>
          simp [extractLines, hc, ih, h1, h2, h3]
      · have h2 : extractLines (c :: cs) =
            ((c :: l) :: ls, (extractLines cs).2) := by
          simp [extractLines, hc, h1]
        simp [extractLines, hc, ih, h1, h2]

/-- lineEmits distributes over segment concatenation. -/
theorem lineEmits_append (f : JStr → List Dispatch) (a b : List JStr) :
    lineEmits f (a ++ b) = lineEmits f a ++ lineEmits f b := by
  simp [lineEmits]

/-- The incremental stdout loop, started on a newline-free buffer, emits
exactly the handler output of the complete segments of the buffer
followed by all chunks in order. -/
theorem runStream_eq_flatten (f : JStr → List Dispatch) (chunks : List JStr)
    (buf : JStr) (hb : '\n' ∉ buf) :
    runStream f buf chunks = lineEmits f (extractLines (buf ++ chunks.flatten)).1 := by
  induction chunks generalizing buf with
  | nil => simp [runStream, lineEmits, extractLines_of_no_nl buf hb]
  | cons c cs ih =>
    have hrem := extractLines_snd_no_nl (buf ++ c)
    have step := extractLines_append (buf ++ c) cs.flatten
    calc runStream f buf (c :: cs)
        = lineEmits f (extractLines (buf ++ c)).1 ++
            runStream f (extractLines (buf ++ c)).2 cs := by
          simp [runStream, lineEmits]
      _ = lineEmits f (extractLines (buf ++ c)).1 ++
            lineEmits f
              (extractLines ((extractLines (buf ++ c)).2 ++ cs.flatten)).1 := by
          rw [ih _ hrem]
      _ = lineEmits f (extractLines (buf ++ c ++ cs.flatten)).1 := by
          rw [← lineEmits_append, step]
      _ = lineEmits f (extractLines (buf ++ (c :: cs).flatten)).1 := by
          simp [List.append_assoc]

/-- The stdout loop started with an empty buffer emits exactly the
handler output of the complete segments of the whole concatenated
input. -/
theorem runStream_join (f : JStr → List Dispatch) (chunks : List JStr) :
    runStream f [] chunks = lineEmits f (extractLines chunks.flatten).1 := by
  simpa using runStream_eq_flatten f chunks [] (by simp)

/-- The download stdout handler dispatches exactly the parses of the
nonempty segments: an empty segment or a parse failure contributes
nothing and later segments are untouched. -/
theorem lineEmits_downloadLine (segs : List JStr) :
    lineEmits downloadLine segs =
      segs.filterMap
        (fun l => if l = [] then none else (jsonParse l).map .backend) := by
  induction segs with
  | nil => rfl
  | cons l ls ih =>
    by_cases hl : l = []
    · simpa [lineEmits, hl] using ih
    · cases hj : jsonParse l <;>
        simpa [lineEmits, downloadLine, hl, hj] using ih

/-- Reading back the field just assigned on an object returns the
assigned value. -/
theorem lookupField_insertKey (fs : List (JStr × Json)) (k : JStr)
    (v : Json) : lookupField (insertKey fs k v) k = some v := by
  induction fs with
  | nil => simp [insertKey, lookupField]
  | cons kv rest ih =>
    by_cases h : kv.1 = k <;> simp [insertKey, lookupField, h, ih]

/-- Terminal dispatches count distributes over concatenation. -/
theorem countTerminal_append (a b : List Dispatch) :
    countTerminal (a ++ b) = countTerminal a + countTerminal b := by
  simp [countTerminal]

/-- The synthesized download process_exit message is terminal. -/
theorem isTerminalMsg_downloadExit (url : JStr) (code : Option Int) :
    isTerminalMsg (downloadExitMsg url code) = true := by
  by_cases h : code = some 0 <;>
    simp [isTerminalMsg, downloadExitMsg, Json.getField, lookupField, h]

/-- The synthesized patch process_exit message is terminal. -/
theorem isTerminalMsg_patchExit (id : JStr) (code : Option Int) :
    isTerminalMsg (patchExitMsg id code) = true := by
  by_cases h : code = some 0 <;>
    simp [isTerminalMsg, patchExitMsg, Json.getField, lookupField, h]

/-- The synthesized download process_exit message reports completed
exactly when the exit code is 0. -/
theorem downloadExit_status (url : JStr) (code : Option Int) :
    ((downloadExitMsg url code).getField "status".data =
      some (.str "completed".data)) ↔ code = some 0 := by
  by_cases h : code = some 0 <;>
    simp [downloadExitMsg, Json.getField, lookupField, h]

/-- The synthesized patch process_exit message reports completed exactly
when the exit code is 0. -/
theorem patchExit_status (id : JStr) (code : Option Int) :
    ((patchExitMsg id code).getField "status".data =
      some (.str "completed".data)) ↔ code = some 0 := by
  by_cases h : code = some 0 <;>
    simp [patchExitMsg, Json.getField, lookupField, h]

/-- Claim C1: while a job for a key is in flight (its kind-prefixed key
sits in activeProcesses), a second request with the same key of the same
kind is rejected as a pure no-op: no process is spawned, the registry is
neither written nor released, nothing is dispatched, and the state —
including the entry of the running first job — is returned unchanged;
nothing anywhere queues or merges the duplicate request. -/
theorem claim_C1_dedup_noop (st : List JStr) (u du : JStr) (d : PatchData)
    (w : WriteRes) (inp inp2 inp3 : RunInput) :
    (fetchKey u ∈ st → fetchRun st u inp = ⟨st, [], false, 0, 0⟩) ∧
    (downloadKey du ∈ st → downloadRun st du inp2 = ⟨st, [], false, 0, 0⟩) ∧
    (patchKey d.identifier ∈ st →
      patchRun st d w inp3 = ⟨st, [], false, 0, 0, 0, false⟩) := by
  refine ⟨fun h => ?_, fun h => ?_, fun h => ?_⟩ <;>
    simp [fetchRun, downloadRun, patchRun, h]

/-- Witness for C1 at concrete inputs: each handler, invoked while its
own key is registered, returns the untouched state and does nothing. -/
theorem claim_C1_dedup_noop_witness :
    fetchRun [fetchKey "r".data] "r".data ⟨[], some 0⟩ =
      ⟨[fetchKey "r".data], [], false, 0, 0⟩ ∧
    downloadRun [downloadKey "d".data] "d".data ⟨[], some 0⟩ =
      ⟨[downloadKey "d".data], [], false, 0, 0⟩ ∧
    patchRun [patchKey "p".data] ⟨some [1], "t".data, "p".data, none⟩ .ok
        ⟨[], some 0⟩ =
      ⟨[patchKey "p".data], [], false, 0, 0, 0, false⟩ :=
  ⟨(claim_C1_dedup_noop [fetchKey "r".data] "r".data "d".data
      ⟨some [1], "t".data, "p".data, none⟩ .ok ⟨[], some 0⟩ ⟨[], some 0⟩
      ⟨[], some 0⟩).1 (by decide),
   (claim_C1_dedup_noop [downloadKey "d".data] "r".data "d".data
      ⟨some [1], "t".data, "p".data, none⟩ .ok ⟨[], some 0⟩ ⟨[], some 0⟩
      ⟨[], some 0⟩).2.1 (by decide),
   (claim_C1_dedup_noop [patchKey "p".data] "r".data "d".data
      ⟨some [1], "t".data, "p".data, none⟩ .ok ⟨[], some 0⟩ ⟨[], some 0⟩
      ⟨[], some 0⟩).2.2 (by decide)⟩

/-- Claim C10: every registry key is the kind prefix concatenated with
the requester-supplied key; keys of distinct kinds never collide, keys of
one kind collide exactly when the requester keys are equal, and a fetch
admission proceeds even when download and patch entries for the very same
underlying key string are in flight — dedup scopes to one kind. -/
theorem claim_C10_key_namespacing :
    (∀ u : JStr, fetchKey u = "fetch:".data ++ u ∧
      downloadKey u = "download:".data ++ u ∧
      patchKey u = "patch:".data ++ u) ∧
    (∀ a b : JStr, fetchKey a ≠ downloadKey b ∧ fetchKey a ≠ patchKey b ∧
      downloadKey a ≠ patchKey b) ∧
    (∀ a b : JStr, (fetchKey a = fetchKey b ↔ a = b) ∧
      (downloadKey a = downloadKey b ↔ a = b) ∧
      (patchKey a = patchKey b ↔ a = b)) ∧
    (∀ (u : JStr) (inp : RunInput),
      (fetchRun [downloadKey u, patchKey u] u inp).spawned = true) := by
  have hfd : ∀ a b : JStr, fetchKey a ≠ downloadKey b := by
    intro a b h; simp [fetchKey, downloadKey] at h
  have hfp : ∀ a b : JStr, fetchKey a ≠ patchKey b := by
    intro a b h; simp [fetchKey, patchKey] at h
  have hdp : ∀ a b : JStr, downloadKey a ≠ patchKey b := by
    intro a b h; simp [downloadKey, patchKey] at h
  refine ⟨fun u => ⟨rfl, rfl, rfl⟩,
    fun a b => ⟨hfd a b, hfp a b, hdp a b⟩,
    fun a b => ?_, fun u inp => ?_⟩
  · refine ⟨⟨fun h => List.append_cancel_left h, fun h => by rw [h]⟩,
      ⟨fun h => List.append_cancel_left h, fun h => by rw [h]⟩,
      ⟨fun h => List.append_cancel_left h, fun h => by rw [h]⟩⟩
  · have hmem : fetchKey u ∉ [downloadKey u, patchKey u] := by
      intro hm
      rcases List.mem_cons.1 hm with h | h
      · exact hfd u u h
      · exact hfp u u (by simpa using h)
    simp [fetchRun, hmem]

/-- The patch stdout handler dispatches exactly the identifier-annotated
parses of the nonempty segments: an empty segment, a parse failure, or a
null line (whose identifier assignment throws into the same catch)
contributes nothing, and every later segment is untouched. -/
theorem lineEmits_patchLine (id : JStr) (segs : List JStr) :
    lineEmits (patchLine id) segs =
      segs.filterMap
        (fun l => if l = [] then none
          else match jsonParse l with
            | none => none
            | some .null => none
            | some j =>
                some (.backend (j.setField "identifier".data (.str id)))) := by
  induction segs with
  | nil => rfl
  | cons l ls ih =>
    by_cases hl : l = []
    · simpa [lineEmits, hl] using ih
    · rcases hj : jsonParse l with _ | j
      · simpa [lineEmits, patchLine, hl, hj] using ih
      · rcases j <;> simpa [lineEmits, patchLine, hl, hj] using ih

/-- Claim C3: along the whole stream, dispatches of the download and
patch stdout handlers are exactly the successful parses of the nonempty
complete segments — an empty segment (consecutive newlines) is silently
skipped and a segment that fails JSON parsing is skipped emitting
nothing, with every later segment decoded unaffected; concretely,
feeding one chunk holding a malformed line and then a valid one
dispatches exactly the one parsed message. -/
theorem claim_C3_malformed_skipped :
    (∀ chunks : List JStr,
      runStream downloadLine [] chunks =
        (extractLines chunks.flatten).1.filterMap
          (fun l => if l = [] then none else (jsonParse l).map .backend)) ∧
    (∀ (id : JStr) (chunks : List JStr),
      runStream (patchLine id) [] chunks =
        (extractLines chunks.flatten).1.filterMap
          (fun l => if l = [] then none
            else match jsonParse l with
              | none => none
              | some .null => none
              | some j =>
                  some (.backend (j.setField "identifier".data (.str id))))) ∧
    runStream downloadLine []
        ["not json\n\x7b\"a\":1\x7d\n".data] =
      [.backend (.obj [("a".data, .num 1 0)])] ∧
    runStream (patchLine "p".data) []
        ["not json\n\x7b\"a\":1\x7d\n".data] =
      [.backend (.obj [("a".data, .num 1 0),
                       ("identifier".data, .str "p".data)])] := by
  refine ⟨fun chunks => ?_, fun id chunks => ?_, rfl, rfl⟩
  · rw [runStream_join, lineEmits_downloadLine]
  · rw [runStream_join, lineEmits_patchLine]

/-- A stream with no terminal dispatch contributes no terminal count. -/
theorem countTerminal_eq_zero (ds : List Dispatch)
    (h : ∀ x ∈ ds, isTerminalDispatch x = false) : countTerminal ds = 0 := by
  simp [countTerminal, List.filter_eq_nil_iff]
  intro a ha
  simp [h a ha]

/-- Claim C2 counterexample: the same eleven protocol bytes — the line
holding the object whose field a is the two-byte character U+00E9 — fed
whole versus split between the two bytes of that character. Because each
data chunk runs through toString on its own, the split run decodes the
two halves to two replacement characters, and the consumer receives a
different parsed message than in the whole run: a split in the middle of
a multi-byte encoded character is not reassembled. -/
theorem claim_C2_counterexample :
    runStreamBytes downloadLine
        [[0x7B, 0x22, 0x61, 0x22, 0x3A, 0x22, 0xC3, 0xA9, 0x22, 0x7D, 0x0A]] =
      [.backend (.obj [("a".data, .str "é".data)])] ∧
    runStreamBytes downloadLine
        [[0x7B, 0x22, 0x61, 0x22, 0x3A, 0x22, 0xC3],
         [0xA9, 0x22, 0x7D, 0x0A]] =
      [.backend (.obj [("a".data, .str [repl, repl])])] ∧
    "é".data ≠ [repl, repl] :=
  ⟨rfl, rfl, by decide⟩

/-- Claim C2 (amended): at the level of decoded JS strings the loop is
exact — feeding any sequence of string chunks emits exactly the parses of
the complete newline-terminated segments of the concatenation, in order,
with the trailing partial segment retained, so any split at
encoded-character boundaries yields the same parsed messages as one
chunk; the spec example splitting a line mid-object yields exactly the
two parsed messages. Only a split inside the byte sequence of a
multi-byte character corrupts it into replacement characters (see the
counterexample), because each byte chunk is decoded independently. -/
theorem claim_C2_reassembly_amended :
    (∀ chunks : List JStr,
      runStream downloadLine [] chunks =
        runStream downloadLine [] [chunks.flatten]) ∧
    runStream downloadLine []
        ["\x7b\"a\":1\x7d\n\x7b\"b\"".data, ":2\x7d\n".data] =
      [.backend (.obj [("a".data, .num 1 0)]),
       .backend (.obj [("b".data, .num 2 0)])] := by
  constructor
  · intro chunks
    rw [runStream_join, runStream_join]
    simp
  · rfl

/-- Claim C4 counterexample: a download worker emits
OperationResult completed and then exits with code 0 — both terminal
conditions fire — yet two terminal dispatches reach the consumer (the
forwarded operation result and the unconditionally synthesized
process_exit), not exactly one; the registry release does run once. -/
theorem claim_C4_counterexample :
    countTerminal (downloadRun [] "u".data
      ⟨["\x7b\"type\":\"operation\",\"status\":\"completed\"\x7d\n".data],
       some 0⟩).dispatches = 2 ∧
    (downloadRun [] "u".data
      ⟨["\x7b\"type\":\"operation\",\"status\":\"completed\"\x7d\n".data],
       some 0⟩).deleteCalls = 1 :=
  ⟨rfl, rfl⟩

/-- Claim C4 (amended): for every admitted download or patch job the
registry release (activeProcesses.delete) runs exactly once, at close;
but the close handler appends its synthesized process_exit dispatch
unconditionally, so the job's dispatches are the streamed ones plus that
one, and the consumer receives exactly one more terminal dispatch than
the stream already carried — two, not one, whenever an OperationResult
with terminal status was already dispatched. -/
theorem claim_C4_release_once_but_double_dispatch (st st2 : List JStr)
    (u : JStr) (d : PatchData) (inp inp2 : RunInput)
    (h1 : downloadKey u ∉ st) (h2 : patchKey d.identifier ∉ st2)
    (h3 : d.ipaBuffer ≠ none) (h4 : d.tweakPath ≠ []) :
    (downloadRun st u inp).deleteCalls = 1 ∧
    (patchRun st2 d .ok inp2).deleteCalls = 1 ∧
    (downloadRun st u inp).dispatches =
      runStream downloadLine [] inp.chunks ++
        [.backend (downloadExitMsg u inp.exitCode)] ∧
    (patchRun st2 d .ok inp2).dispatches =
      runStream (patchLine d.identifier) [] inp2.chunks ++
        [.backend (patchExitMsg d.identifier inp2.exitCode)] ∧
    countTerminal (downloadRun st u inp).dispatches =
      countTerminal (runStream downloadLine [] inp.chunks) + 1 ∧
    countTerminal (patchRun st2 d .ok inp2).dispatches =
      countTerminal (runStream (patchLine d.identifier) [] inp2.chunks) + 1 := by
  refine ⟨?_, ?_, ?_, ?_, ?_, ?_⟩ <;>
    simp [downloadRun, patchRun, h1, h2, h3, h4, countTerminal_append,
      countTerminal, isTerminalDispatch, isTerminalMsg_downloadExit,
      isTerminalMsg_patchExit]

/-- Witness for C4 (amended) at the double-terminal input of the
counterexample: release once, dispatches are stream plus process_exit,
terminal count is the stream's plus one. -/
theorem claim_C4_release_once_but_double_dispatch_witness :
    (downloadRun [] "w".data
      ⟨["\x7b\"type\":\"operation\",\"status\":\"completed\"\x7d\n".data],
       some 0⟩).deleteCalls = 1 ∧
    (patchRun [] ⟨some [1], "t".data, "w".data, none⟩ .ok
      ⟨[], some 0⟩).deleteCalls = 1 ∧
    (downloadRun [] "w".data
      ⟨["\x7b\"type\":\"operation\",\"status\":\"completed\"\x7d\n".data],
       some 0⟩).dispatches =
      runStream downloadLine []
        ["\x7b\"type\":\"operation\",\"status\":\"completed\"\x7d\n".data] ++
        [.backend (downloadExitMsg "w".data (some 0))] ∧
    (patchRun [] ⟨some [1], "t".data, "w".data, none⟩ .ok
      ⟨[], some 0⟩).dispatches =
      runStream (patchLine "w".data) [] [] ++
        [.backend (patchExitMsg "w".data (some 0))] ∧
    countTerminal (downloadRun [] "w".data
      ⟨["\x7b\"type\":\"operation\",\"status\":\"completed\"\x7d\n".data],
       some 0⟩).dispatches =
      countTerminal (runStream downloadLine []
        ["\x7b\"type\":\"operation\",\"status\":\"completed\"\x7d\n".data]) + 1 ∧
    countTerminal (patchRun [] ⟨some [1], "t".data, "w".data, none⟩ .ok
      ⟨[], some 0⟩).dispatches =
      countTerminal (runStream (patchLine "w".data) [] []) + 1 :=
  claim_C4_release_once_but_double_dispatch [] [] "w".data
    ⟨some [1], "t".data, "w".data, none⟩
    ⟨["\x7b\"type\":\"operation\",\"status\":\"completed\"\x7d\n".data],
     some 0⟩ ⟨[], some 0⟩
    (by decide) (by decide) (by decide) (by decide)

/-- Claim C5 counterexample: a fetch job is a job, and its worker exits
with code 1 without ever emitting an OperationResult — yet nothing at all
is dispatched to the consumer: the fetch close handler only logs and
releases the registry entry, synthesizing no terminal process_exit
message. -/
theorem claim_C5_counterexample :
    (fetchRun [] "u".data ⟨[], some 1⟩).dispatches = [] ∧
    (fetchRun [] "u".data ⟨[], some 1⟩).deleteCalls = 1 :=
  ⟨rfl, rfl⟩

/-- Claim C5 (amended): for download and patch jobs whose stream carried
no terminal dispatch, the close handler synthesizes and dispatches the
one terminal process_exit message, last, with status completed exactly
when the exit code is zero and failed otherwise; fetch jobs are the
exception — their close handler dispatches nothing, so such a fetch job
ends with no terminal event at all. -/
theorem claim_C5_synthesized_exit (st st2 st3 : List JStr) (u u2 : JStr)
    (d : PatchData) (inp inp2 inp3 : RunInput)
    (h1 : downloadKey u ∉ st)
    (ht : ∀ x ∈ runStream downloadLine [] inp.chunks,
      isTerminalDispatch x = false)
    (h2 : patchKey d.identifier ∉ st2) (h3 : d.ipaBuffer ≠ none)
    (h4 : d.tweakPath ≠ [])
    (ht2 : ∀ x ∈ runStream (patchLine d.identifier) [] inp2.chunks,
      isTerminalDispatch x = false)
    (h5 : fetchKey u2 ∉ st3) :
    countTerminal (downloadRun st u inp).dispatches = 1 ∧
    (downloadRun st u inp).dispatches.getLast? =
      some (.backend (downloadExitMsg u inp.exitCode)) ∧
    (((downloadExitMsg u inp.exitCode).getField "status".data =
      some (.str "completed".data)) ↔ inp.exitCode = some 0) ∧
    countTerminal (patchRun st2 d .ok inp2).dispatches = 1 ∧
    (patchRun st2 d .ok inp2).dispatches.getLast? =
      some (.backend (patchExitMsg d.identifier inp2.exitCode)) ∧
    (((patchExitMsg d.identifier inp2.exitCode).getField "status".data =
      some (.str "completed".data)) ↔ inp2.exitCode = some 0) ∧
    (fetchRun st3 u2 inp3).dispatches = runStream fetchLine [] inp3.chunks := by
  have hz := countTerminal_eq_zero _ ht
  have hz2 := countTerminal_eq_zero _ ht2
  have hone : ∀ (j : Json), isTerminalMsg j = true →
      countTerminal [Dispatch.backend j] = 1 := by
    intro j hj; simp [countTerminal, isTerminalDispatch, hj]
  refine ⟨?_, ?_, downloadExit_status u inp.exitCode, ?_, ?_,
    patchExit_status d.identifier inp2.exitCode, ?_⟩
  · rw [show (downloadRun st u inp).dispatches =
        runStream downloadLine [] inp.chunks ++
          [.backend (downloadExitMsg u inp.exitCode)] by
        simp [downloadRun, h1],
      countTerminal_append, hz,
      hone _ (isTerminalMsg_downloadExit u inp.exitCode)]
  · rw [show (downloadRun st u inp).dispatches =
        runStream downloadLine [] inp.chunks ++
          [.backend (downloadExitMsg u inp.exitCode)] by
        simp [downloadRun, h1],
      List.getLast?_concat]
  · rw [show (patchRun st2 d .ok inp2).dispatches =
        runStream (patchLine d.identifier) [] inp2.chunks ++
          [.backend (patchExitMsg d.identifier inp2.exitCode)] by
        simp [patchRun, h2, h3, h4],
      countTerminal_append, hz2,
      hone _ (isTerminalMsg_patchExit d.identifier inp2.exitCode)]
  · rw [show (patchRun st2 d .ok inp2).dispatches =
        runStream (patchLine d.identifier) [] inp2.chunks ++
          [.backend (patchExitMsg d.identifier inp2.exitCode)] by
        simp [patchRun, h2, h3, h4],
      List.getLast?_concat]
  · simp [fetchRun, h5]

/-- Witness for C5 (amended): a download worker and a patch worker that
exit with code 1 having emitted nothing yield exactly one terminal
dispatch each, the synthesized process_exit with status failed, and a
fetch worker doing the same yields no dispatch. -/
theorem claim_C5_synthesized_exit_witness :
    countTerminal (downloadRun [] "v".data ⟨[], some 1⟩).dispatches = 1 ∧
    (downloadRun [] "v".data ⟨[], some 1⟩).dispatches.getLast? =
      some (.backend (downloadExitMsg "v".data (some 1))) ∧
    (((downloadExitMsg "v".data (some 1)).getField "status".data =
      some (.str "completed".data)) ↔ (some 1 : Option Int) = some 0) ∧
    countTerminal (patchRun [] ⟨some [1], "t".data, "v".data, none⟩ .ok
      ⟨[], some 1⟩).dispatches = 1 ∧
    (patchRun [] ⟨some [1], "t".data, "v".data, none⟩ .ok
      ⟨[], some 1⟩).dispatches.getLast? =
      some (.backend (patchExitMsg "v".data (some 1))) ∧
    (((patchExitMsg "v".data (some 1)).getField "status".data =
      some (.str "completed".data)) ↔ (some 1 : Option Int) = some 0) ∧
    (fetchRun [] "v".data ⟨[], some 1⟩).dispatches =
      runStream fetchLine [] [] :=
  claim_C5_synthesized_exit [] [] [] "v".data "v".data
    ⟨some [1], "t".data, "v".data, none⟩ ⟨[], some 1⟩ ⟨[], some 1⟩
    ⟨[], some 1⟩ (by decide) (by simp [runStream])
    (by decide) (by decide) (by decide) (by simp [runStream]) (by decide)

/-- Claim C6 counterexample: a patch job whose fs.writeFile staging
fails after the open created the file (for instance the disk filling up
mid-write) ends with no unlink ever invoked and the partially written
temp IPA file still present — the staging-failure exit path does not
remove the staged temporary file. -/
theorem claim_C6_counterexample :
    (patchRun [] ⟨some [1], "t".data, "p".data, none⟩ (.err true)
      ⟨[], some 0⟩).unlinkCalls = 0 ∧
    (patchRun [] ⟨some [1], "t".data, "p".data, none⟩ (.err true)
      ⟨[], some 0⟩).tempExists = true :=
  ⟨rfl, rfl⟩

/-- Claim C6 (amended): on the three exit paths that reach the close
handler — successful completion, explicit worker failure, and spawn
failure (close with a null code) — the staged temp IPA is unlinked
exactly once and is gone afterwards; on the staging-failure path no
removal is attempted, so whatever the failed write left behind
persists. -/
theorem claim_C6_temp_cleanup (st : List JStr) (d : PatchData)
    (inp : RunInput) (p : Bool) (h1 : patchKey d.identifier ∉ st)
    (h3 : d.ipaBuffer ≠ none) (h4 : d.tweakPath ≠ []) :
    (patchRun st d .ok inp).unlinkCalls = 1 ∧
    (patchRun st d .ok inp).tempExists = false ∧
    (patchRun st d (.err p) inp).unlinkCalls = 0 ∧
    (patchRun st d (.err p) inp).tempExists = p := by
  refine ⟨?_, ?_, ?_, ?_⟩ <;> simp [patchRun, h1, h3, h4]

/-- Witness for C6 (amended) covering a completed run, a worker-failure
run, a spawn-failure run and a staging failure at concrete inputs. -/
theorem claim_C6_temp_cleanup_witness :
    ((patchRun [] ⟨some [1], "t".data, "q".data, none⟩ .ok
        ⟨[], some 0⟩).unlinkCalls = 1 ∧
      (patchRun [] ⟨some [1], "t".data, "q".data, none⟩ .ok
        ⟨[], some 0⟩).tempExists = false ∧
      (patchRun [] ⟨some [1], "t".data, "q".data, none⟩ (.err false)
        ⟨[], some 0⟩).unlinkCalls = 0 ∧
      (patchRun [] ⟨some [1], "t".data, "q".data, none⟩ (.err false)
        ⟨[], some 0⟩).tempExists = false) ∧
    ((patchRun [] ⟨some [1], "t".data, "q".data, none⟩ .ok
        ⟨[], some 1⟩).unlinkCalls = 1 ∧
      (patchRun [] ⟨some [1], "t".data, "q".data, none⟩ .ok
        ⟨[], none⟩).unlinkCalls = 1) :=
  ⟨claim_C6_temp_cleanup [] ⟨some [1], "t".data, "q".data, none⟩
      ⟨[], some 0⟩ false (by decide) (by decide) (by decide),
    (claim_C6_temp_cleanup [] ⟨some [1], "t".data, "q".data, none⟩
      ⟨[], some 1⟩ false (by decide) (by decide) (by decide)).1,
    (claim_C6_temp_cleanup [] ⟨some [1], "t".data, "q".data, none⟩
      ⟨[], none⟩ false (by decide) (by decide) (by decide)).1⟩

/-- Claim C7 counterexample: a fetch request whose spawn fails (the
process produces nothing and close fires with a null code) dispatches
nothing at all to the consumer — no Failed terminal event surfaces — and
the registry was nonetheless written for the process that never started
(the entry is set before any spawn outcome is known). -/
theorem claim_C7_counterexample :
    (fetchRun [] "u".data ⟨[], none⟩).dispatches = [] ∧
    (fetchRun [] "u".data ⟨[], none⟩).setCalls = 1 :=
  ⟨rfl, rfl⟩

/-- Claim C7 (amended): a spawn failure (no output, close with a null
code, after an error event these listeners do not handle) surfaces as a
Failed process_exit terminal dispatch for download and patch jobs but as
nothing for a fetch job; in every kind the handler first registers the
entry for the never-started process (set once) and the close handler then
removes it, so no entry remains once the job is over. -/
theorem claim_C7_spawn_failure (st st2 st3 : List JStr) (u u2 : JStr)
    (d : PatchData) (h1 : downloadKey u ∉ st)
    (h2 : patchKey d.identifier ∉ st2) (h3 : d.ipaBuffer ≠ none)
    (h4 : d.tweakPath ≠ []) (h5 : fetchKey u2 ∉ st3) :
    (downloadRun st u ⟨[], none⟩).dispatches =
      [.backend (downloadExitMsg u none)] ∧
    isTerminalDispatch (.backend (downloadExitMsg u none)) = true ∧
    (downloadExitMsg u none).getField "status".data =
      some (.str "failed".data) ∧
    (downloadRun st u ⟨[], none⟩).setCalls = 1 ∧
    (downloadRun st u ⟨[], none⟩).registry = st ∧
    (patchRun st2 d .ok ⟨[], none⟩).dispatches =
      [.backend (patchExitMsg d.identifier none)] ∧
    (patchExitMsg d.identifier none).getField "status".data =
      some (.str "failed".data) ∧
    (patchRun st2 d .ok ⟨[], none⟩).registry = st2 ∧
    (fetchRun st3 u2 ⟨[], none⟩).dispatches = [] ∧
    (fetchRun st3 u2 ⟨[], none⟩).setCalls = 1 ∧
    (fetchRun st3 u2 ⟨[], none⟩).registry = st3 := by
  refine ⟨?_, ?_, ?_, ?_, ?_, ?_, ?_, ?_, ?_, ?_, ?_⟩
  · simp [downloadRun, h1, runStream]
  · simp [isTerminalDispatch, isTerminalMsg_downloadExit]
  · simp [downloadExitMsg, Json.getField, lookupField]
  · simp [downloadRun, h1]
  · simp [downloadRun, h1]
  · simp [patchRun, h2, h3, h4, runStream]
  · simp [patchExitMsg, Json.getField, lookupField]
  · simp [patchRun, h2, h3, h4]
  · simp [fetchRun, h5, runStream]
  · simp [fetchRun, h5]
  · simp [fetchRun, h5]

/-- Witness for C7 (amended) at concrete inputs of all three kinds. -/
theorem claim_C7_spawn_failure_witness :
    (downloadRun [] "s".data ⟨[], none⟩).dispatches =
      [.backend (downloadExitMsg "s".data none)] ∧
    isTerminalDispatch (.backend (downloadExitMsg "s".data none)) = true ∧
    (downloadExitMsg "s".data none).getField "status".data =
      some (.str "failed".data) ∧
    (downloadRun [] "s".data ⟨[], none⟩).setCalls = 1 ∧
    (downloadRun [] "s".data ⟨[], none⟩).registry = [] ∧
    (patchRun [] ⟨some [1], "t".data, "s".data, none⟩ .ok
      ⟨[], none⟩).dispatches = [.backend (patchExitMsg "s".data none)] ∧
    (patchExitMsg "s".data none).getField "status".data =
      some (.str "failed".data) ∧
    (patchRun [] ⟨some [1], "t".data, "s".data, none⟩ .ok
      ⟨[], none⟩).registry = [] ∧
    (fetchRun [] "s".data ⟨[], none⟩).dispatches = [] ∧
    (fetchRun [] "s".data ⟨[], none⟩).setCalls = 1 ∧
    (fetchRun [] "s".data ⟨[], none⟩).registry = [] :=
  claim_C7_spawn_failure [] [] [] "s".data "s".data
    ⟨some [1], "t".data, "s".data, none⟩
    (by decide) (by decide) (by decide) (by decide) (by decide)

/-- Claim C8: when the fs.writeFile staging of a patch job fails, the
failure is dispatched to the consumer as exactly one operation message
with status failed carrying that job's identifier, and no worker process
is spawned (nor any registry write or unlink performed). -/
theorem claim_C8_staging_reported (st : List JStr) (d : PatchData)
    (inp : RunInput) (p : Bool) (h1 : patchKey d.identifier ∉ st)
    (h3 : d.ipaBuffer ≠ none) (h4 : d.tweakPath ≠ []) :
    (patchRun st d (.err p) inp).dispatches =
      [.backend (stagingFailMsg d.identifier)] ∧
    (stagingFailMsg d.identifier).getField "type".data =
      some (.str "operation".data) ∧
    (stagingFailMsg d.identifier).getField "status".data =
      some (.str "failed".data) ∧
    (stagingFailMsg d.identifier).getField "identifier".data =
      some (.str d.identifier) ∧
    (patchRun st d (.err p) inp).spawned = false ∧
    (patchRun st d (.err p) inp).setCalls = 0 := by
  refine ⟨?_, rfl, rfl, rfl, ?_, ?_⟩ <;> simp [patchRun, h1, h3, h4]

/-- Witness for C8 at a concrete staging failure. -/
theorem claim_C8_staging_reported_witness :
    (patchRun [] ⟨some [1], "t".data, "x1".data, none⟩ (.err false)
      ⟨[], some 0⟩).dispatches =
      [.backend (stagingFailMsg "x1".data)] ∧
    (stagingFailMsg "x1".data).getField "type".data =
      some (.str "operation".data) ∧
    (stagingFailMsg "x1".data).getField "status".data =
      some (.str "failed".data) ∧
    (stagingFailMsg "x1".data).getField "identifier".data =
      some (.str "x1".data) ∧
    (patchRun [] ⟨some [1], "t".data, "x1".data, none⟩ (.err false)
      ⟨[], some 0⟩).spawned = false ∧
    (patchRun [] ⟨some [1], "t".data, "x1".data, none⟩ (.err false)
      ⟨[], some 0⟩).setCalls = 0 :=
  claim_C8_staging_reported [] ⟨some [1], "t".data, "x1".data, none⟩
    ⟨[], some 0⟩ false (by decide) (by decide) (by decide)

/-- Claim C9 counterexample: a patch worker message that carries its own
explicit identifier field, itemX, is dispatched with identifier jobY —
the job's key — because the patch handler assigns the job identifier over
whatever the message carried; the claim that a message-carried identifier
is used is false. -/
theorem claim_C9_counterexample :
    (patchRun [] ⟨some [1], "t".data, "jobY".data, none⟩ .ok
      ⟨["\x7b\"type\":\"progress\",\"identifier\":\"itemX\"\x7d\n".data],
       some 0⟩).dispatches =
      [.backend (.obj [("type".data, .str "progress".data),
                       ("identifier".data, .str "jobY".data)]),
       .backend (patchExitMsg "jobY".data (some 0))] ∧
    "jobY".data ≠ "itemX".data :=
  ⟨rfl, by decide⟩

/-- Claim C9 (amended): the identifier attached by the patch dispatcher
is always the job's own key — assignment overwrites a message-carried
identifier field (and appends it when absent); the message's own
identifier is consulted only in the renderer routing fallback, which uses
it when truthy and otherwise falls back to the message's download_url
field, not to a job key. -/
theorem claim_C9_identifier_attachment :
    (∀ (fs : List (JStr × Json)) (id : JStr),
      (Json.setField (.obj fs) "identifier".data
          (.str id)).getField "identifier".data = some (.str id)) ∧
    (∀ data : Json, jsTruthy (data.getField "identifier".data) = true →
      routeId data = data.getField "identifier".data) ∧
    (∀ data : Json, jsTruthy (data.getField "identifier".data) = false →
      routeId data = data.getField "download_url".data) := by
  refine ⟨fun fs id => ?_, fun data h => ?_, fun data h => ?_⟩
  · simpa [Json.setField, Json.getField] using
      lookupField_insertKey fs "identifier".data (.str id)
  · simp [routeId, h]
  · simp [routeId, h]
